import Mathlib

/-!
Formal model of the `diskspace` Go package (`statfs.go`, `diskspace.go`):
a platform-dependent disk-usage prober (`diskUsage`) and a threshold-driven
check-and-maintain cycle (`maintainDiskUsage`), plus the configuration
defaulting performed by `Maintain` before its loop starts.

Modelling conventions:
  - Go `uint64` arithmetic is `Nat` with explicit reduction modulo `2^64`
    (`U64`); wrapping subtraction `a - b` is `(a + U64 - b) % U64`.
  - Go `float64` quotients are modelled as exact rationals; IEEE division
    by zero (the quotient is `+Inf` when the numerator is positive and
    `NaN` when it is zero, and either compares false under `<` against any
    finite threshold) is modelled explicitly in `ratioLtThreshold`.
  - The two `diskUsage` syscall outcomes and the `m.Clean()` outcome of a
    cycle are inputs of `maintainDiskUsage` (`Except String _` values);
    the cycle body is the source's straight-line code over them.
  - `time.Duration` is `Int` (nanoseconds); `runtime.GOOS == "darwin"` is
    a `Bool` parameter `isDarwin`.
-/

namespace Diskspace

/-- Modulus of Go `uint64` arithmetic: `2^64`. -/
def U64 : Nat := 18446744073709551616

/-- Disk size constant from `diskspace.go`: `KB = 1 << 10`. -/
def KB : Nat := 1024

/-- Disk size constant from `diskspace.go`: `MB = 1 << 20 = 1048576`. -/
def MB : Nat := 1048576

/-- Wrapping `uint64` subtraction, for operands already reduced below `U64`. -/
def sub64 (a b : Nat) : Nat := (a + U64 - b) % U64

/-- The fields of `syscall.Statfs_t` that `diskUsage` reads, each a `uint64`
value (`Bsize` is the value after Go's `uint64(fs.Bsize)` conversion). -/
structure Statfs_t where
  Blocks : Nat
  Bavail : Nat
  Bfree : Nat
  Bsize : Nat
deriving DecidableEq

/-- `diskStatus` from `statfs.go`: four `uint64` byte counts. -/
structure diskStatus where
  all : Nat
  available : Nat
  free : Nat
  used : Nat
deriving DecidableEq

/-- `diskUsage` from `statfs.go`, on a successful `Statfs` syscall:
`all = Blocks * Bsize`, `available = Bavail * Bsize`, `free = Bfree * Bsize`
in `uint64` arithmetic, and `used = all - available` when
`runtime.GOOS == "darwin"`, else `used = all - free`. -/
def diskUsage (isDarwin : Bool) (fs : Statfs_t) : diskStatus :=
  let all := fs.Blocks * fs.Bsize % U64
  let available := fs.Bavail * fs.Bsize % U64
  let free := fs.Bfree * fs.Bsize % U64
  { all := all
    available := available
    free := free
    used := if isDarwin then sub64 all available else sub64 all free }

/-- Well-formedness of a successful filesystem-statistics result: the OS
reports no more available or free blocks than total blocks, and the volume's
byte size fits in `uint64` (no overflow in `Blocks * Bsize`). -/
def statfsWF (fs : Statfs_t) : Prop :=
  fs.Blocks * fs.Bsize < U64 ∧ fs.Bavail ≤ fs.Blocks ∧ fs.Bfree ≤ fs.Blocks

instance (fs : Statfs_t) : Decidable (statfsWF fs) := by
  unfold statfsWF; infer_instance

/-- The source's guard `float64(usedMB) / float64(totalMB) < threshold`.
When `totalMB = 0` the IEEE quotient is `+Inf` (if `usedMB > 0`) or `NaN`
(if `usedMB = 0`), and either compares false under `<` against any finite
threshold, so the guard is `false`; otherwise the quotient is the exact
rational `usedMB / totalMB`. -/
def ratioLtThreshold (usedMB totalMB : Nat) (threshold : ℚ) : Bool :=
  if totalMB = 0 then false
  else decide ((usedMB : ℚ) / (totalMB : ℚ) < threshold)

/-- `du.used / MB` for the probe result on `fs`: the truncated used megabytes. -/
def usedMBof (isDarwin : Bool) (fs : Statfs_t) : Nat :=
  (diskUsage isDarwin fs).used / MB

/-- `du.all / MB` for the probe result on `fs`: the truncated total megabytes. -/
def totalMBof (isDarwin : Bool) (fs : Statfs_t) : Nat :=
  (diskUsage isDarwin fs).all / MB

/-- The error a check-and-maintain cycle can return: a probe (`Statfs`) error
propagated unchanged, or the cleanup callback's error wrapped by
`fmt.Errorf("clean: %v", err)`. -/
inductive CycleError where
  | probeError (e : String)
  | cleanError (e : String)
deriving DecidableEq

/-- Observable outcome of one `maintainDiskUsage` cycle: the returned error
(`none` for `nil`), how many times `m.Clean` was invoked, how many times
`diskUsage` was invoked, and the `(used_mb, freed_mb)` pair of the
"disk space cleaned" info log when it is emitted. -/
structure CycleOut where
  result : Option CycleError
  cleanCalls : Nat
  probeCalls : Nat
  freedLog : Option (Nat × Nat)
deriving DecidableEq

/-- `maintainDiskUsage` from `diskspace.go`, one check-and-maintain cycle.
`probe1` and `probe2` are the outcomes of the first and (if reached) second
`diskUsage(m.Volume)` calls, `cleanRes` the outcome of `m.Clean()`. The body
follows the source: probe, truncate both byte counts to megabytes, compare
the float ratio against the threshold, clean, re-probe, log the freed
megabytes computed by wrapping `uint64` subtraction. -/
def maintainDiskUsage (isDarwin : Bool) (threshold : ℚ)
    (probe1 : Except String Statfs_t) (cleanRes : Except String Unit)
    (probe2 : Except String Statfs_t) : CycleOut :=
  match probe1 with
  | .error e => ⟨some (.probeError e), 0, 1, none⟩
  | .ok fs =>
    if ratioLtThreshold (usedMBof isDarwin fs) (totalMBof isDarwin fs) threshold then
      ⟨none, 0, 1, none⟩
    else
      match cleanRes with
      | .error e => ⟨some (.cleanError ("clean: " ++ e)), 1, 1, none⟩
      | .ok _ =>
        match probe2 with
        | .error e => ⟨some (.probeError e), 1, 2, none⟩
        | .ok fs2 =>
          ⟨none, 1, 2,
            some (usedMBof isDarwin fs2,
                  sub64 (usedMBof isDarwin fs) (usedMBof isDarwin fs2))⟩

/-- The configuration fields of `Maintainer` that `Maintain` validates.
`CleanSet` records whether `m.Clean` is non-nil; `CheckInterval` is a
`time.Duration` in nanoseconds; `Threshold` is the `float64` threshold. -/
structure MaintainerConfig where
  Volume : String
  CheckInterval : Int
  Threshold : ℚ
  CleanSet : Bool
deriving DecidableEq

/-- `defaultVolume = "/"` from `diskspace.go`. -/
def defaultVolume : String := "/"

/-- `defaultThreshold = 0.9` from `diskspace.go`. -/
def defaultThreshold : ℚ := 9 / 10

/-- `defaultCheckInterval = 10 * time.Minute` from `diskspace.go`,
in nanoseconds. -/
def defaultCheckInterval : Int := 600000000000

/-- The defaulting performed by `Maintain` before its first cycle:
an empty `Volume` becomes `defaultVolume`, a `Threshold` with
`Threshold <= 0 || Threshold >= 1` becomes `defaultThreshold`, and a
`CheckInterval <= 0` becomes `defaultCheckInterval`. -/
def applyDefaults (m : MaintainerConfig) : MaintainerConfig :=
  { m with
    Volume := if m.Volume = "" then defaultVolume else m.Volume
    Threshold :=
      if m.Threshold ≤ 0 ∨ 1 ≤ m.Threshold then defaultThreshold else m.Threshold
    CheckInterval :=
      if m.CheckInterval ≤ 0 then defaultCheckInterval else m.CheckInterval }

/-- Outcome of `Maintain`'s initialization: either it panicked on a nil
`Clean`, or it entered the maintenance loop with an effective configuration. -/
inductive MaintainStart where
  | panicked
  | started (cfg : MaintainerConfig)
deriving DecidableEq

/-- The initialization of `Maintain` from `diskspace.go`: panic immediately
when `m.Clean == nil`, otherwise apply the configuration defaults and enter
the loop (whose first action is a synchronous `maintainDiskUsage` cycle). -/
def Maintain (m : MaintainerConfig) : MaintainStart :=
  if m.CleanSet then .started (applyDefaults m) else .panicked

/-- Concrete statfs result: a 100 MB volume with 5 MB free and available
(1 MB block size), 95% used on a non-darwin platform. -/
def fsHigh : Statfs_t := ⟨100, 5, 5, 1048576⟩

/-- Concrete statfs result: a 100 MB volume with 20 MB free and available,
80% used on a non-darwin platform. -/
def fsLow : Statfs_t := ⟨100, 20, 20, 1048576⟩

/-- Concrete statfs result: a 100 MB volume with 3 MB free, 97% used on a
non-darwin platform (more used than `fsHigh`). -/
def fsHigher : Statfs_t := ⟨100, 3, 3, 1048576⟩

/-- Concrete statfs result: a tiny volume of 512 bytes total, below 1 MB. -/
def fsTiny : Statfs_t := ⟨1, 0, 0, 512⟩

/-- Concrete configuration: every field left at its Go zero value, with a
non-nil cleanup callback. -/
def cfgZero : MaintainerConfig := ⟨"", 0, 0, true⟩

/-- Concrete configuration whose cleanup callback is nil. -/
def cfgNilClean : MaintainerConfig := ⟨"", 0, 0, false⟩

example : usedMBof false fsHigh = 95 := by decide
example : totalMBof false fsHigh = 100 := by decide
example : ratioLtThreshold 95 100 (9 / 10) = false := by
  unfold ratioLtThreshold; norm_num
example : ratioLtThreshold 80 100 (9 / 10) = true := by
  unfold ratioLtThreshold; norm_num
example : statfsWF fsHigh := by decide

/-- Helper: the `all` field of a probe result. -/
theorem diskUsage_all (d : Bool) (fs : Statfs_t) :
    (diskUsage d fs).all = fs.Blocks * fs.Bsize % U64 := rfl

/-- Helper: the `available` field of a probe result. -/
theorem diskUsage_available (d : Bool) (fs : Statfs_t) :
    (diskUsage d fs).available = fs.Bavail * fs.Bsize % U64 := rfl

/-- Helper: the `free` field of a probe result. -/
theorem diskUsage_free (d : Bool) (fs : Statfs_t) :
    (diskUsage d fs).free = fs.Bfree * fs.Bsize % U64 := rfl

/-- Helper: the `used` field of a probe result, by platform. -/
theorem diskUsage_used (d : Bool) (fs : Statfs_t) :
    (diskUsage d fs).used =
      if d then sub64 (fs.Blocks * fs.Bsize % U64) (fs.Bavail * fs.Bsize % U64)
      else sub64 (fs.Blocks * fs.Bsize % U64) (fs.Bfree * fs.Bsize % U64) := rfl

/-- Helper: `used` is always strictly below `2^64`, on either platform. -/
theorem diskUsage_used_lt (d : Bool) (fs : Statfs_t) : (diskUsage d fs).used < U64 := by
  rw [diskUsage_used]
  have h : 0 < U64 := by norm_num [U64]
  cases d
  · simpa [sub64] using Nat.mod_lt (fs.Blocks * fs.Bsize % U64 + U64 - fs.Bfree * fs.Bsize % U64) h
  · simpa [sub64] using Nat.mod_lt (fs.Blocks * fs.Bsize % U64 + U64 - fs.Bavail * fs.Bsize % U64) h

/-- Helper: under well-formedness, the `available` and `free` byte products
do not exceed the total byte product. -/
theorem statfsWF.le_total (fs : Statfs_t) (h : statfsWF fs) :
    fs.Bavail * fs.Bsize ≤ fs.Blocks * fs.Bsize ∧
    fs.Bfree * fs.Bsize ≤ fs.Blocks * fs.Bsize :=
  ⟨mul_le_mul_right' h.2.1 fs.Bsize, mul_le_mul_right' h.2.2 fs.Bsize⟩

/-- C2: for every successful filesystem-statistics query the probe returns
`total = blocks * block_size`, `available = available_blocks * block_size`,
`free = free_blocks * block_size`, and `used = total - available` on the
reference platform (darwin) while `used = total - free` on every other
platform. -/
theorem C2_diskUsage_formulas (fs : Statfs_t) (h : statfsWF fs) :
    (∀ d : Bool, (diskUsage d fs).all = fs.Blocks * fs.Bsize ∧
      (diskUsage d fs).available = fs.Bavail * fs.Bsize ∧
      (diskUsage d fs).free = fs.Bfree * fs.Bsize) ∧
    (diskUsage true fs).used = (diskUsage true fs).all - (diskUsage true fs).available ∧
    (diskUsage false fs).used = (diskUsage false fs).all - (diskUsage false fs).free := by
  obtain ⟨hx, hav, hfr⟩ := h
  have hy : fs.Bavail * fs.Bsize ≤ fs.Blocks * fs.Bsize := mul_le_mul_right' hav fs.Bsize
  have hz : fs.Bfree * fs.Bsize ≤ fs.Blocks * fs.Bsize := mul_le_mul_right' hfr fs.Bsize
  unfold U64 at hx
  refine ⟨fun d => ⟨?_, ?_, ?_⟩, ?_, ?_⟩ <;>
    simp only [diskUsage_all, diskUsage_available, diskUsage_free, diskUsage_used,
      if_true, if_false, sub64, U64, Bool.false_eq_true, ite_true, ite_false] <;>
    omega

/-- C2 witness: the formulas evaluated on the concrete statfs record `fsHigh`. -/
theorem C2_witness :
    statfsWF fsHigh ∧
    ((∀ d : Bool, (diskUsage d fsHigh).all = fsHigh.Blocks * fsHigh.Bsize ∧
        (diskUsage d fsHigh).available = fsHigh.Bavail * fsHigh.Bsize ∧
        (diskUsage d fsHigh).free = fsHigh.Bfree * fsHigh.Bsize) ∧
      (diskUsage true fsHigh).used =
        (diskUsage true fsHigh).all - (diskUsage true fsHigh).available ∧
      (diskUsage false fsHigh).used =
        (diskUsage false fsHigh).all - (diskUsage false fsHigh).free) :=
  ⟨by decide, C2_diskUsage_formulas fsHigh (by decide)⟩

/-- C4: every probe result of a well-formed statfs query satisfies the
invariant `used <= total`, on the reference platform and all others. -/
theorem C4_used_le_total (fs : Statfs_t) (h : statfsWF fs) :
    ∀ d : Bool, (diskUsage d fs).used ≤ (diskUsage d fs).all := by
  obtain ⟨hx, hav, hfr⟩ := h
  have hy : fs.Bavail * fs.Bsize ≤ fs.Blocks * fs.Bsize := mul_le_mul_right' hav fs.Bsize
  have hz : fs.Bfree * fs.Bsize ≤ fs.Blocks * fs.Bsize := mul_le_mul_right' hfr fs.Bsize
  unfold U64 at hx
  intro d
  cases d <;>
    simp only [diskUsage_all, diskUsage_used, sub64, U64, if_true, if_false,
      Bool.false_eq_true, ite_true, ite_false] <;>
    omega

/-- C4 witness: the invariant evaluated on the concrete statfs record `fsLow`. -/
theorem C4_witness :
    statfsWF fsLow ∧ ∀ d : Bool, (diskUsage d fsLow).used ≤ (diskUsage d fsLow).all :=
  ⟨by decide, C4_used_le_total fsLow (by decide)⟩

/-- Helper: for a nonzero divisor the guard is true exactly when the exact
rational quotient is below the threshold. -/
theorem ratioLtThreshold_eq_true (u tot : Nat) (t : ℚ) (h : tot ≠ 0) :
    ratioLtThreshold u tot t = true ↔ (u : ℚ) / (tot : ℚ) < t := by
  simp [ratioLtThreshold, h]

/-- Helper: for a nonzero divisor the guard is false exactly when the exact
rational quotient meets or exceeds the threshold. -/
theorem ratioLtThreshold_eq_false (u tot : Nat) (t : ℚ) (h : tot ≠ 0) :
    ratioLtThreshold u tot t = false ↔ t ≤ (u : ℚ) / (tot : ℚ) := by
  simp [ratioLtThreshold, h, not_lt]

/-- Helper: whenever the first probe succeeds and the guard is false, the
cleanup callback runs exactly once, whatever the cleanup and second probe do. -/
theorem cleanCalls_one_of_guard_false (d : Bool) (t : ℚ) (fs : Statfs_t)
    (c : Except String Unit) (p2 : Except String Statfs_t)
    (hg : ratioLtThreshold (usedMBof d fs) (totalMBof d fs) t = false) :
    (maintainDiskUsage d t (.ok fs) c p2).cleanCalls = 1 := by
  rcases c with e | u
  · simp [maintainDiskUsage, hg]
  · rcases p2 with e2 | fs2 <;> simp [maintainDiskUsage, hg]

/-- Helper: the concrete guard value for `fsHigh` at threshold `9/10`
(95 used of 100 total megabytes, so the ratio is not below the threshold). -/
theorem guardHigh_false :
    ratioLtThreshold (usedMBof false fsHigh) (totalMBof false fsHigh) (9 / 10) = false := by
  rw [show usedMBof false fsHigh = 95 by decide, show totalMBof false fsHigh = 100 by decide]
  unfold ratioLtThreshold
  norm_num

/-- C1: in a cycle whose first probe succeeds (and whose computed ratio is a
finite number, i.e. `totalMB > 0`), the cleanup callback is invoked exactly
once when the computed ratio meets or exceeds the threshold, and never when
it is strictly below the threshold. -/
theorem C1_clean_iff_threshold (d : Bool) (t : ℚ) (fs : Statfs_t)
    (c : Except String Unit) (p2 : Except String Statfs_t)
    (hpos : 0 < totalMBof d fs) :
    ((usedMBof d fs : ℚ) / (totalMBof d fs : ℚ) < t →
      (maintainDiskUsage d t (.ok fs) c p2).cleanCalls = 0) ∧
    (t ≤ (usedMBof d fs : ℚ) / (totalMBof d fs : ℚ) →
      (maintainDiskUsage d t (.ok fs) c p2).cleanCalls = 1) := by
  have hne : totalMBof d fs ≠ 0 := Nat.pos_iff_ne_zero.mp hpos
  constructor
  · intro hlt
    have hg := (ratioLtThreshold_eq_true (usedMBof d fs) (totalMBof d fs) t hne).mpr hlt
    simp [maintainDiskUsage, hg]
  · intro hge
    exact cleanCalls_one_of_guard_false d t fs c p2
      ((ratioLtThreshold_eq_false (usedMBof d fs) (totalMBof d fs) t hne).mpr hge)

/-- C1 witness: the dichotomy evaluated on the concrete statfs record `fsHigh`
at threshold `9/10`, with a succeeding cleanup and second probe. -/
theorem C1_witness :
    0 < totalMBof false fsHigh ∧
    (((usedMBof false fsHigh : ℚ) / (totalMBof false fsHigh : ℚ) < 9 / 10 →
      (maintainDiskUsage false (9 / 10) (.ok fsHigh) (.ok ()) (.ok fsHigh)).cleanCalls = 0) ∧
    ((9 : ℚ) / 10 ≤ (usedMBof false fsHigh : ℚ) / (totalMBof false fsHigh : ℚ) →
      (maintainDiskUsage false (9 / 10) (.ok fsHigh) (.ok ()) (.ok fsHigh)).cleanCalls = 1)) :=
  ⟨by decide, C1_clean_iff_threshold false (9 / 10) fsHigh (.ok ()) (.ok fsHigh) (by decide)⟩

/-- C3: the ratio the cycle compares against the threshold is
`(used / 2^20 truncated) / (total / 2^20 truncated)`, both truncations
performed before the division: the cycle skips cleanup exactly when that
truncated ratio is below the threshold. -/
theorem C3_truncated_ratio (d : Bool) (t : ℚ) (fs : Statfs_t)
    (c : Except String Unit) (p2 : Except String Statfs_t)
    (hpos : 0 < (diskUsage d fs).all / MB) :
    (maintainDiskUsage d t (.ok fs) c p2).cleanCalls = 0 ↔
      (((diskUsage d fs).used / MB : Nat) : ℚ) / (((diskUsage d fs).all / MB : Nat) : ℚ) < t := by
  have hne : totalMBof d fs ≠ 0 := Nat.pos_iff_ne_zero.mp hpos
  by_cases hlt :
      (((diskUsage d fs).used / MB : Nat) : ℚ) / (((diskUsage d fs).all / MB : Nat) : ℚ) < t
  · have hg := (ratioLtThreshold_eq_true (usedMBof d fs) (totalMBof d fs) t hne).mpr hlt
    have h0 : (maintainDiskUsage d t (.ok fs) c p2).cleanCalls = 0 := by
      simp [maintainDiskUsage, hg]
    exact iff_of_true h0 hlt
  · have hg := (ratioLtThreshold_eq_false (usedMBof d fs) (totalMBof d fs) t hne).mpr
      (not_lt.mp hlt)
    have h1 := cleanCalls_one_of_guard_false d t fs c p2 hg
    refine iff_of_false ?_ hlt
    rw [h1]
    norm_num

/-- C3 witness: the equivalence evaluated on the concrete statfs record
`fsLow` (80 of 100 megabytes used) at threshold `9/10`. -/
theorem C3_witness :
    0 < (diskUsage false fsLow).all / MB ∧
    ((maintainDiskUsage false (9 / 10) (.ok fsLow) (.ok ()) (.ok fsLow)).cleanCalls = 0 ↔
      (((diskUsage false fsLow).used / MB : Nat) : ℚ) /
        (((diskUsage false fsLow).all / MB : Nat) : ℚ) < 9 / 10) :=
  ⟨by decide, C3_truncated_ratio false (9 / 10) fsLow (.ok ()) (.ok fsLow) (by decide)⟩

/-- C5: when the cleanup callback returns an error in a cycle that reached
it, the cycle returns the callback's error wrapped as a clean error
(`fmt.Errorf("clean: %v", err)`), and only one probe occurred (no second
probe of the volume). -/
theorem C5_clean_error (d : Bool) (t : ℚ) (fs : Statfs_t) (e : String)
    (p2 : Except String Statfs_t)
    (hg : ratioLtThreshold (usedMBof d fs) (totalMBof d fs) t = false) :
    (maintainDiskUsage d t (.ok fs) (.error e) p2).result =
      some (.cleanError ("clean: " ++ e)) ∧
    (maintainDiskUsage d t (.ok fs) (.error e) p2).probeCalls = 1 := by
  simp [maintainDiskUsage, hg]

/-- C5 witness: the clean-error outcome evaluated on `fsHigh` at threshold
`9/10` with a failing cleanup callback. -/
theorem C5_witness :
    ratioLtThreshold (usedMBof false fsHigh) (totalMBof false fsHigh) (9 / 10) = false ∧
    ((maintainDiskUsage false (9 / 10) (.ok fsHigh) (.error "boom") (.ok fsHigh)).result =
      some (.cleanError ("clean: " ++ "boom")) ∧
    (maintainDiskUsage false (9 / 10) (.ok fsHigh) (.error "boom") (.ok fsHigh)).probeCalls = 1) :=
  ⟨guardHigh_false, C5_clean_error false (9 / 10) fsHigh "boom" (.ok fsHigh) guardHigh_false⟩

/-- C6: when cleanup succeeds but the second (post-cleanup) probe fails, the
cycle returns the probe error and the freed-space info log is not emitted. -/
theorem C6_second_probe_error (d : Bool) (t : ℚ) (fs : Statfs_t) (e : String)
    (hg : ratioLtThreshold (usedMBof d fs) (totalMBof d fs) t = false) :
    (maintainDiskUsage d t (.ok fs) (.ok ()) (.error e)).result = some (.probeError e) ∧
    (maintainDiskUsage d t (.ok fs) (.ok ()) (.error e)).freedLog = none := by
  simp [maintainDiskUsage, hg]

/-- C6 witness: the failed-second-probe outcome evaluated on `fsHigh` at
threshold `9/10`. -/
theorem C6_witness :
    ratioLtThreshold (usedMBof false fsHigh) (totalMBof false fsHigh) (9 / 10) = false ∧
    ((maintainDiskUsage false (9 / 10) (.ok fsHigh) (.ok ()) (.error "gone")).result =
      some (.probeError "gone") ∧
    (maintainDiskUsage false (9 / 10) (.ok fsHigh) (.ok ()) (.error "gone")).freedLog = none) :=
  ⟨guardHigh_false, C6_second_probe_error false (9 / 10) fsHigh "gone" guardHigh_false⟩

/-- C7: before the first cycle runs, `Maintain` replaces every unset or
invalid configuration field with its default — empty volume becomes `"/"`,
a threshold outside the open interval `(0,1)` (that is, `<= 0` or `>= 1`)
becomes `0.9`, a non-positive check interval becomes 10 minutes — and
leaves fields that already hold valid values unchanged. -/
theorem C7_defaults (m : MaintainerConfig) (h : m.CleanSet = true) :
    Maintain m = .started (applyDefaults m) ∧
    (m.Volume = "" → (applyDefaults m).Volume = "/") ∧
    (m.Volume ≠ "" → (applyDefaults m).Volume = m.Volume) ∧
    (m.Threshold ≤ 0 ∨ 1 ≤ m.Threshold → (applyDefaults m).Threshold = 9 / 10) ∧
    (0 < m.Threshold → m.Threshold < 1 → (applyDefaults m).Threshold = m.Threshold) ∧
    (m.CheckInterval ≤ 0 → (applyDefaults m).CheckInterval = 600000000000) ∧
    (0 < m.CheckInterval → (applyDefaults m).CheckInterval = m.CheckInterval) := by
  refine ⟨by simp [Maintain, h], ?_, ?_, ?_, ?_, ?_, ?_⟩
  · intro hv
    simp [applyDefaults, hv, defaultVolume]
  · intro hv
    simp [applyDefaults, hv]
  · intro ht
    rcases ht with ht | ht <;> simp [applyDefaults, ht, defaultThreshold]
  · intro ht0 ht1
    simp [applyDefaults, not_le.mpr ht0, not_le.mpr ht1]
  · intro hi
    simp [applyDefaults, hi, defaultCheckInterval]
  · intro hi
    simp [applyDefaults, not_le.mpr hi]

/-- C7 witness: the defaulting evaluated on the all-zero configuration
`cfgZero`. -/
theorem C7_witness :
    cfgZero.CleanSet = true ∧
    (Maintain cfgZero = .started (applyDefaults cfgZero) ∧
    (cfgZero.Volume = "" → (applyDefaults cfgZero).Volume = "/") ∧
    (cfgZero.Volume ≠ "" → (applyDefaults cfgZero).Volume = cfgZero.Volume) ∧
    (cfgZero.Threshold ≤ 0 ∨ 1 ≤ cfgZero.Threshold →
      (applyDefaults cfgZero).Threshold = 9 / 10) ∧
    (0 < cfgZero.Threshold → cfgZero.Threshold < 1 →
      (applyDefaults cfgZero).Threshold = cfgZero.Threshold) ∧
    (cfgZero.CheckInterval ≤ 0 → (applyDefaults cfgZero).CheckInterval = 600000000000) ∧
    (0 < cfgZero.CheckInterval → (applyDefaults cfgZero).CheckInterval = cfgZero.CheckInterval)) :=
  ⟨rfl, C7_defaults cfgZero rfl⟩

/-- C8: when the cleanup callback is nil, `Maintain` panics immediately: its
initialization ends in the panic outcome, which applies no defaults and runs
no usage check. -/
theorem C8_nil_clean_panics (m : MaintainerConfig) (h : m.CleanSet = false) :
    Maintain m = .panicked := by
  simp [Maintain, h]

/-- C8 witness: the panic outcome evaluated on the configuration
`cfgNilClean`. -/
theorem C8_witness : cfgNilClean.CleanSet = false ∧ Maintain cfgNilClean = .panicked :=
  ⟨rfl, C8_nil_clean_panics cfgNilClean rfl⟩

/-- C9: whenever the first probe reports fewer than `2^20` total bytes, the
truncated megabyte divisor is zero, the guard built from the floating-point
ratio is false for every threshold, and so the cleanup callback is invoked
(exactly once) regardless of actual usage. -/
theorem C9_zero_totalMB (d : Bool) (t : ℚ) (fs : Statfs_t)
    (c : Except String Unit) (p2 : Except String Statfs_t)
    (hsmall : (diskUsage d fs).all < MB) (_ht0 : 0 < t) (_ht1 : t < 1) :
    totalMBof d fs = 0 ∧
    ratioLtThreshold (usedMBof d fs) (totalMBof d fs) t = false ∧
    (maintainDiskUsage d t (.ok fs) c p2).cleanCalls = 1 := by
  have h0 : totalMBof d fs = 0 := Nat.div_eq_of_lt hsmall
  have hg : ratioLtThreshold (usedMBof d fs) (totalMBof d fs) t = false := by
    rw [h0]
    simp [ratioLtThreshold]
  exact ⟨h0, hg, cleanCalls_one_of_guard_false d t fs c p2 hg⟩

/-- C9 witness: the unguarded-division consequence evaluated on the 512-byte
volume `fsTiny` at threshold `1/2`. -/
theorem C9_witness :
    (diskUsage false fsTiny).all < MB ∧ 0 < (1 : ℚ) / 2 ∧ (1 : ℚ) / 2 < 1 ∧
    (totalMBof false fsTiny = 0 ∧
    ratioLtThreshold (usedMBof false fsTiny) (totalMBof false fsTiny) (1 / 2) = false ∧
    (maintainDiskUsage false (1 / 2) (.ok fsTiny) (.ok ()) (.ok fsTiny)).cleanCalls = 1) :=
  ⟨by decide, one_half_pos, one_half_lt_one,
    C9_zero_totalMB false (1 / 2) fsTiny (.ok ()) (.ok fsTiny) (by decide)
      one_half_pos one_half_lt_one⟩

/-- C10: the reported freed megabytes is the wrapping `uint64` difference
`usedMB_before - usedMB_after` modulo `2^64`; when usage after cleanup
exceeds usage before, the reported value wraps to within `2^44` of `2^64`
(both truncated megabyte counts are below `2^44`) instead of being negative
or zero. -/
theorem C10_freed_wraps (d : Bool) (t : ℚ) (fs fs2 : Statfs_t)
    (hg : ratioLtThreshold (usedMBof d fs) (totalMBof d fs) t = false)
    (hlt : usedMBof d fs < usedMBof d fs2) :
    (maintainDiskUsage d t (.ok fs) (.ok ()) (.ok fs2)).freedLog =
      some (usedMBof d fs2, (usedMBof d fs + U64 - usedMBof d fs2) % U64) ∧
    (usedMBof d fs + U64 - usedMBof d fs2) % U64 =
      U64 - (usedMBof d fs2 - usedMBof d fs) ∧
    U64 - 2 ^ 44 < (usedMBof d fs + U64 - usedMBof d fs2) % U64 := by
  have hpow : (2 : Nat) ^ 44 = 17592186044416 := by norm_num
  have hb : usedMBof d fs2 < 2 ^ 44 := by
    have h1 : (diskUsage d fs2).used < U64 := diskUsage_used_lt d fs2
    unfold U64 at h1
    have h2 : usedMBof d fs2 = (diskUsage d fs2).used / MB := rfl
    rw [h2, hpow]
    unfold MB
    omega
  rw [hpow] at hb
  refine ⟨by simp [maintainDiskUsage, hg, sub64], ?_, ?_⟩
  · unfold U64
    omega
  · rw [hpow]
    unfold U64
    omega

/-- C10 witness: the wrapped freed value evaluated on a cycle that measures
95 used megabytes before cleanup (`fsHigh`) and 97 after (`fsHigher`). -/
theorem C10_witness :
    ratioLtThreshold (usedMBof false fsHigh) (totalMBof false fsHigh) (9 / 10) = false ∧
    usedMBof false fsHigh < usedMBof false fsHigher ∧
    ((maintainDiskUsage false (9 / 10) (.ok fsHigh) (.ok ()) (.ok fsHigher)).freedLog =
      some (usedMBof false fsHigher,
            (usedMBof false fsHigh + U64 - usedMBof false fsHigher) % U64) ∧
    (usedMBof false fsHigh + U64 - usedMBof false fsHigher) % U64 =
      U64 - (usedMBof false fsHigher - usedMBof false fsHigh) ∧
    U64 - 2 ^ 44 < (usedMBof false fsHigh + U64 - usedMBof false fsHigher) % U64) :=
  ⟨guardHigh_false, by decide,
    C10_freed_wraps false (9 / 10) fsHigh fsHigher guardHigh_false (by decide)⟩

end Diskspace
